import Mathlib

/-
Shallow embedding of `exif_date_from_filename.py` (and the earlier revision
`exif_from_filename.py` where the claims cite it).

Modelling conventions:
* Python exceptions are an explicit error type `PyError`; a Python function
  that may raise becomes a Lean function into `Except PyError _`.
* A compiled regex applied to a filename stem is abstracted as a function
  `String → Option GroupDict`: `none` is "no match", `some gd` is the
  `match.groupdict()` dictionary (every named group of the pattern is a key;
  a group that did not participate in the match maps to `none`, mirroring
  Python `None`).
* The image file on disk is an `ExifFile`: whether `Image.open` succeeds,
  whether an "exif" blob is present in `img.info`, whether `piexif.load`
  succeeds on it, and (when it does) the two tags the program inspects.
* Filesystem side effects of the write path (piexif.dump, img.save into the
  temp file, each os.replace attempt) are driven by an `Env` oracle.
-/

namespace EDF

/-- Python exception classes distinguished by the embedded code. -/
inductive PyError
  | keyError
  | typeError
  | valueError
  | unicodeDecodeError
  | invalidDataError
  deriving DecidableEq, Repr

/-- A Python value that can appear as an argument of `int(...)` in
`RegexNameParser.parse_date`: a captured string, `None`, or the integer
default of `dict.get`. -/
inductive PyVal
  | vStr (s : String)
  | vNone
  | vInt (n : Int)
  deriving DecidableEq, Repr

/-- `match.groupdict()`: every named group of the pattern is a key; the value
is the captured text, or `none` when the group did not participate. -/
abbrev GroupDict := List (String × Option String)

/-- Dictionary lookup: `none` = key absent, `some v` = key present with
value `v` (which is itself `none` for Python `None`). -/
def gdFind (gd : GroupDict) (k : String) : Option (Option String) :=
  match gd.find? (fun p => p.1 == k) with
  | some p => some p.2
  | none => none

/-- Python `d[k]`: `KeyError` when the key is absent. -/
def pyGetItem (gd : GroupDict) (k : String) : Except PyError PyVal :=
  match gdFind gd k with
  | none => .error .keyError
  | some none => .ok .vNone
  | some (some s) => .ok (.vStr s)

/-- Python `d.get(k, default)`: the stored value when the key is present
(even when that value is `None`), the default otherwise. -/
def pyGet (gd : GroupDict) (k : String) (dflt : PyVal) : PyVal :=
  match gdFind gd k with
  | none => dflt
  | some none => .vNone
  | some (some s) => .vStr s

/-- Decimal digit value of a character, if it is a digit. -/
def charDigit (c : Char) : Option Nat :=
  if 48 ≤ c.toNat && c.toNat ≤ 57 then some (c.toNat - 48) else none

/-- Accumulate a decimal value over a run of characters; fails on the
first non-digit. -/
def digitsVal : List Char → Nat → Option Nat
  | [], acc => some acc
  | c :: cs, acc =>
    match charDigit c with
    | some d => digitsVal cs (acc * 10 + d)
    | none => none

/-- The integer literals `int(...)` accepts, over the decoded characters:
an optional sign followed by a nonempty digit run. (Surrounding whitespace
and digit-group underscores, which CPython also tolerates, are not
modelled; no claim turns on them.) -/
def pyIntChars (cs : List Char) : Option Int :=
  match cs with
  | [] => none
  | '-' :: ds =>
    if ds.isEmpty then none else (digitsVal ds 0).map (fun n => -(n : Int))
  | '+' :: ds =>
    if ds.isEmpty then none else (digitsVal ds 0).map (fun n => (n : Int))
  | ds => (digitsVal ds 0).map (fun n => (n : Int))

/-- Python `int(s)` on a string: `ValueError` when the text is not an
integer literal. -/
def pyIntOfString (s : String) : Except PyError Int :=
  match pyIntChars s.toList with
  | some n => .ok n
  | none => .error .valueError

/-- Python `int(v)`: strings parse or raise `ValueError`; `None` raises
`TypeError`; an int is returned unchanged. -/
def pyValToInt : PyVal → Except PyError Int
  | .vStr s => pyIntOfString s
  | .vNone => .error .typeError
  | .vInt n => .ok n

/-- The result of Python `datetime(...)`. `microsecond` is a field of the
Python object; the embedded call passes only six arguments, so the
constructor default applies. -/
structure DateTime where
  year : Int
  month : Int
  day : Int
  hour : Int
  minute : Int
  second : Int
  microsecond : Int
  deriving DecidableEq, Repr

/-- Gregorian leap-year rule used by `datetime`. -/
def isLeapYear (y : Int) : Bool :=
  (y % 4 == 0 && y % 100 != 0) || y % 400 == 0

/-- Days in a month, as `datetime` validates `day`. -/
def daysInMonth (y m : Int) : Int :=
  if m == 2 then (if isLeapYear y then 29 else 28)
  else if m == 4 || m == 6 || m == 9 || m == 11 then 30
  else 31

/-- The range checks `datetime.__new__` performs on its six arguments. -/
def validDate (y mo d h mi s : Int) : Bool :=
  1 ≤ y && y ≤ 9999 && 1 ≤ mo && mo ≤ 12 && 1 ≤ d && d ≤ daysInMonth y mo &&
  0 ≤ h && h ≤ 23 && 0 ≤ mi && mi ≤ 59 && 0 ≤ s && s ≤ 59

/-- Python `datetime(y, mo, d, h, mi, s)`: `ValueError` outside the valid
ranges; `microsecond` defaults to `0`. -/
def datetimeNew (y mo d h mi s : Int) : Except PyError DateTime :=
  if validDate y mo d h mi s then .ok ⟨y, mo, d, h, mi, s, 0⟩
  else .error .valueError

/-- `int(groupdict["year"])` and friends: item lookup then `int(...)`. -/
def getRequired (gd : GroupDict) (k : String) : Except PyError Int := do
  pyValToInt (← pyGetItem gd k)

/-- `int(groupdict.get(k, 0))` for the optional fields. -/
def getOptional (gd : GroupDict) (k : String) : Except PyError Int :=
  pyValToInt (pyGet gd k (.vInt 0))

/-- The body of the `try:` block of `RegexNameParser.parse_date`: the six
`int(...)` conversions in Python evaluation order, then the `datetime`
construction. -/
def parseDateBody (gd : GroupDict) : Except PyError DateTime := do
  let y ← getRequired gd "year"
  let mo ← getRequired gd "month"
  let d ← getRequired gd "day"
  let h ← getOptional gd "hour"
  let mi ← getOptional gd "minute"
  let s ← getOptional gd "second"
  datetimeNew y mo d h mi s

/-- `RegexNameParser`: the compiled pattern applied to `filename.stem` is
abstracted as the match function. -/
structure RegexNameParser where
  regexMatch : String → Option GroupDict

/-- `RegexNameParser.parse_date`: no match gives `None`; otherwise the body
runs with only `ValueError` caught (returning `None`); any other exception
propagates. -/
def RegexNameParser.parse_date (p : RegexNameParser) (path : String) :
    Except PyError (Option DateTime) :=
  match p.regexMatch path with
  | none => .ok none
  | some gd =>
    match parseDateBody gd with
    | .ok dt => .ok (some dt)
    | .error .valueError => .ok none
    | .error e => .error e

/-- A parser in the chain, as `parse_date_from_filename` consumes it:
a function from the path to a possibly-raising optional date. -/
abbrev ParserFun := String → Except PyError (Option DateTime)

/-- A parser that cannot raise (the spec's data-model invariant: every
parser is a pure function from path to optional date-time). -/
def pureParser (f : String → Option DateTime) : ParserFun :=
  fun path => .ok (f path)

/-- The resolver loop: first truthy result wins (a `datetime` object is
always truthy in Python); `None` when all decline; an exception raised by a
parser propagates out of the loop. -/
def parse_date_from_filename (parsers : List ParserFun) (filename : String) :
    Except PyError (Option DateTime) :=
  match parsers with
  | [] => .ok none
  | p :: rest => do
    match (← p filename) with
    | some dt => pure (some dt)
    | none => parse_date_from_filename rest filename

end EDF

namespace EDF

/-- `VERSION` constant of the script. -/
def VERSION : String := "0.1.0"

/-- `PROCESSED_TAG_NON_VARIABLE`: the reserved marker stem. -/
def processedTagStem : String := "exif_date_from_filename"

/-- `PROCESSED_TAG`: stem plus version suffix. -/
def processedTag : String := processedTagStem ++ "_v" ++ VERSION

/-- ASCII/UTF-8 byte encoding of a marker or timestamp string (all strings
the program writes are ASCII). -/
def strBytes (s : String) : List Nat :=
  s.toList.map (fun c => c.toNat)

/-- Python `bytes.decode("ascii")`: succeeds exactly when every byte is
below 128, else `UnicodeDecodeError`. -/
def asciiDecode (bs : List Nat) : Except PyError (List Nat) :=
  if bs.all (fun b => b < 128) then .ok bs else .error .unicodeDecodeError

/-- The slice of the piexif dictionary the program inspects: the
`DateTimeOriginal` tag and the private `PROCESSED_TAG_INDEX` tag of the
`"Exif"` IFD, each an optional byte string. Other tags are carried through
untouched and play no role in any decision. -/
structure ExifDict where
  dateTimeOriginal : Option (List Nat)
  processedMarker : Option (List Nat)
  deriving DecidableEq, Repr

/-- The empty skeleton record built when no exif blob is present. -/
def skeleton : ExifDict := ⟨none, none⟩

/-- The condition of the `if` at the write decision, with Python
left-to-right short-circuit evaluation:
`DateTimeOriginal not in Exif or
 (Exif.get(PROCESSED_TAG_INDEX, b"").decode("ascii").startswith(stem) and update)
 or force`.
The ASCII decode can raise before `force` is ever evaluated. -/
def writeCondition (d : ExifDict) (update force : Bool) : Except PyError Bool :=
  if d.dateTimeOriginal.isNone then .ok true
  else
    match asciiDecode (d.processedMarker.getD []) with
    | .error e => .error e
    | .ok s => .ok ((List.isPrefixOf (strBytes processedTagStem) s && update) || force)

/-- Outcome of `Image.open`. -/
inductive OpenResult
  | opens
  | cannotIdentify
  | failsOther
  deriving DecidableEq, Repr

/-- The on-disk image file, as far as the program observes it. -/
structure ExifFile where
  openRes : OpenResult
  hasExifBlob : Bool
  blobValid : Bool
  tags : ExifDict
  deriving DecidableEq, Repr

/-- The `if "exif" in img.info: piexif.load(...) else: skeleton` step:
an absent blob yields the skeleton; a present but structurally invalid blob
makes `piexif.load` raise. -/
def decodeTags (f : ExifFile) : Except PyError ExifDict :=
  if f.hasExifBlob then
    (if f.blobValid then .ok f.tags else .error .invalidDataError)
  else .ok skeleton

/-- Outcome of one `os.replace(tmp.name, image_path)` call when the temp
file still exists. -/
inductive ReplaceOutcome
  | succeeds
  | permDenied
  | failsOther
  deriving DecidableEq, Repr

/-- Environment oracle for the side-effecting write path. -/
structure Env where
  dumpOk : Bool
  saveOk : Bool
  replace : Nat → ReplaceOutcome

/-- Log levels the program uses. -/
inductive LogLevel
  | debug
  | info
  | warning
  deriving DecidableEq, Repr

/-- One emitted log message, identified by level and message kind. -/
structure LogMsg where
  level : LogLevel
  tag : String
  deriving DecidableEq, Repr

/-- Result of one iteration of the rename-retry loop. `tempAfter` is
whether the temp file still exists after the iteration: the `finally:`
block removes it on every path (ignoring errors), and on a successful
`os.replace` the temp name no longer exists because it was moved. When the
temp file is already gone, `os.replace` raises `FileNotFoundError`, which
lands in the generic `except Exception` branch. -/
structure AttemptResult where
  success : Bool
  tempAfter : Bool
  logs : List LogMsg
  deriving Repr

/-- One iteration of `for retry in range(3)`. -/
def replaceAttempt (env : Env) (retry : Nat) (tempExists : Bool) : AttemptResult :=
  if tempExists then
    match env.replace retry with
    | .succeeds => ⟨true, false, []⟩
    | .permDenied =>
      if retry < 2 then ⟨false, false, []⟩
      else ⟨false, false, [⟨.warning, "replace_retries_failed"⟩]⟩
    | .failsOther => ⟨false, false, [⟨.warning, "replace_unexpected_error"⟩]⟩
  else ⟨false, false, [⟨.warning, "replace_unexpected_error"⟩]⟩

/-- Aggregate result of the retry loop. -/
structure LoopResult where
  replaced : Bool
  tempLeft : Bool
  logs : List LogMsg
  deriving Repr

/-- The three-iteration retry loop; `break` happens only on a successful
replace. -/
def replaceLoop (env : Env) : LoopResult :=
  let a0 := replaceAttempt env 0 true
  if a0.success then ⟨true, a0.tempAfter, a0.logs⟩
  else
    let a1 := replaceAttempt env 1 a0.tempAfter
    if a1.success then ⟨true, a1.tempAfter, a0.logs ++ a1.logs⟩
    else
      let a2 := replaceAttempt env 2 a1.tempAfter
      ⟨a2.success, a2.tempAfter, a0.logs ++ a1.logs ++ a2.logs⟩

/-- Zero-padded decimal rendering for `strftime` fields (arguments are
nonnegative wherever this is used). -/
def padNum (w : Nat) (n : Int) : String :=
  let s := toString n.toNat
  (String.mk (List.replicate (w - s.length) '0')) ++ s

/-- `date_taken.strftime("%Y:%m:%d %H:%M:%S")`. -/
def fmtDateTime (dt : DateTime) : String :=
  padNum 4 dt.year ++ ":" ++ padNum 2 dt.month ++ ":" ++ padNum 2 dt.day ++ " " ++
  padNum 2 dt.hour ++ ":" ++ padNum 2 dt.minute ++ ":" ++ padNum 2 dt.second

/-- The image file produced by a successful save-and-replace: the two tags
are set to the formatted timestamp and the full versioned marker. -/
def writtenFile (dt : DateTime) : ExifFile :=
  ⟨.opens, true, true, ⟨some (strBytes (fmtDateTime dt)), some (strBytes processedTag)⟩⟩

/-- Observable outcome of one `update_exif_date` call: the return value (or
an uncaught exception), the on-disk file afterwards, whether a temp file
was left behind, and the log messages. -/
structure RunResult where
  retVal : Except PyError Bool
  fileAfter : ExifFile
  tempLeft : Bool
  logs : List LogMsg
  deriving Repr

/-- `update_exif_date(parsers, image_path, dry_run, update, force)`.
Returns `True` only from the write branch; every other path returns
`False`. The broad `try: ... except Exception` around the body catches the
load/decision/dump/save exceptions and logs a warning. -/
def update_exif_date (parsers : List ParserFun) (image_path : String)
    (file : ExifFile) (env : Env) (dry_run update force : Bool) : RunResult :=
  match parse_date_from_filename parsers image_path with
  | .error e => ⟨.error e, file, false, []⟩
  | .ok none => ⟨.ok false, file, false, [⟨.debug, "no_date"⟩]⟩
  | .ok (some dt) =>
    if dry_run then ⟨.ok false, file, false, [⟨.info, "would_update"⟩]⟩
    else
      match file.openRes with
      | .cannotIdentify =>
        ⟨.ok false, file, false, [⟨.debug, "open_error"⟩, ⟨.debug, "skip_non_image"⟩]⟩
      | .failsOther =>
        ⟨.ok false, file, false, [⟨.debug, "open_error"⟩, ⟨.warning, "open_error"⟩]⟩
      | .opens =>
        match decodeTags file with
        | .error _ => ⟨.ok false, file, false, [⟨.warning, "processing_error"⟩]⟩
        | .ok d =>
          match writeCondition d update force with
          | .error _ => ⟨.ok false, file, false, [⟨.warning, "processing_error"⟩]⟩
          | .ok false => ⟨.ok false, file, false, [⟨.debug, "already_set"⟩]⟩
          | .ok true =>
            if !env.dumpOk then
              ⟨.ok false, file, false, [⟨.debug, "writing"⟩, ⟨.warning, "processing_error"⟩]⟩
            else if !env.saveOk then
              ⟨.ok false, file, true, [⟨.debug, "writing"⟩, ⟨.warning, "processing_error"⟩]⟩
            else
              let lr := replaceLoop env
              ⟨.ok true, (if lr.replaced then writtenFile dt else file), lr.tempLeft,
               ⟨.debug, "writing"⟩ :: (lr.logs ++ [⟨.info, "updated"⟩])⟩

/-- Insertion into the `updated_dirs` set of `process_directory`. -/
def insertDir (dirs : List String) (dir : String) : List String :=
  if dir ∈ dirs then dirs else dir :: dirs

/-- The body of the per-file loop of `process_directory`: the call is made
with `dry_run = not wet_run`, and the directory is recorded exactly when
the call returned `True`. -/
def process_file (parsers : List ParserFun) (image_path : String)
    (file : ExifFile) (env : Env) (wet_run update force : Bool)
    (dirs : List String) (dir : String) : RunResult × List String :=
  let r := update_exif_date parsers image_path file env (!wet_run) update force
  (r, match r.retVal with
      | .ok true => insertDir dirs dir
      | _ => dirs)

end EDF

namespace EDF

/-! Concrete instances used across the development. -/

/-- Environment where dump, save and the first replace attempt all succeed. -/
def envGood : Env := ⟨true, true, fun _ => .succeeds⟩

/-- Environment where every `os.replace` attempt raises `PermissionError`
(the Windows file-lock scenario the retry loop targets). -/
def envPermFail : Env := ⟨true, true, fun _ => .permDenied⟩

/-- Environment where `img.save` into the temp file raises. -/
def envSaveFails : Env := ⟨true, false, fun _ => .succeeds⟩

/-- The date of the spec's worked example, `2015-06-08 07.00.11`. -/
def dt0 : DateTime := ⟨2015, 6, 8, 7, 0, 11, 0⟩

/-- A one-parser chain that resolves every filename to `dt0`. -/
def P1 : List ParserFun := [pureParser (fun _ => some dt0)]

/-- An image that opens fine and carries no exif blob. -/
def fileNoBlob : ExifFile := ⟨.opens, false, true, skeleton⟩

/-- An image with a set timestamp and a marker tag whose bytes are not
ASCII (byte `200`), as unrelated software could leave behind. -/
def fileNonAsciiMarker : ExifFile :=
  ⟨.opens, true, true, ⟨some (strBytes "2001:01:01 00:00:00"), some [200]⟩⟩

/-- An image that opens and carries an exif blob `piexif.load` rejects. -/
def invalidBlobFile : ExifFile := ⟨.opens, true, false, skeleton⟩

/-! Helper lemmas about the retry loop. -/

/-- Every iteration of the retry loop leaves the temp file removed: the
`finally:` block deletes it, and a successful replace moves it away. -/
theorem replaceAttempt_tempAfter (env : Env) (i : Nat) (t : Bool) :
    (replaceAttempt env i t).tempAfter = false := by
  unfold replaceAttempt
  by_cases ht : t
  · simp only [ht, if_true]
    cases env.replace i with
    | succeeds => rfl
    | permDenied =>
      by_cases hi : i < 2
      · simp [hi]
      · simp [hi]
    | failsOther => rfl
  · simp [ht]

/-- After the loop, no temp file remains, whatever the replace outcomes. -/
theorem replaceLoop_tempLeft (env : Env) : (replaceLoop env).tempLeft = false := by
  unfold replaceLoop
  by_cases h0 : (replaceAttempt env 0 true).success
  · simp only [h0, if_true]
    exact replaceAttempt_tempAfter env 0 true
  · simp only [h0, if_false, Bool.false_eq_true]
    by_cases h1 : (replaceAttempt env 1 (replaceAttempt env 0 true).tempAfter).success
    · simp only [h1, if_true]
      exact replaceAttempt_tempAfter env 1 _
    · simp only [h1, if_false, Bool.false_eq_true]
      exact replaceAttempt_tempAfter env 2 _

end EDF

namespace EDF

/-- Claim C1: in the code as written, when the atomic-replace step is
reached and the rename fails on every attempt, the original file is left
byte-identical (no replace happened, temp removed) — but the function still
returns `True`, so the directory IS counted in the updated-directories set.
This evaluates the code at the failing input: a parseable filename, a wet
run, a file with no timestamp tag, and `os.replace` denied on every
attempt. The claim (and the spec) say the operation must report failure;
the code reports success. -/
theorem update_reports_updated_after_failed_replace :
    (update_exif_date P1 "a.jpg" fileNoBlob envPermFail false false false).retVal = .ok true ∧
    (update_exif_date P1 "a.jpg" fileNoBlob envPermFail false false false).fileAfter = fileNoBlob ∧
    (update_exif_date P1 "a.jpg" fileNoBlob envPermFail false false false).tempLeft = false ∧
    (process_file P1 "a.jpg" fileNoBlob envPermFail true false false [] "d").2 = ["d"] :=
  ⟨rfl, rfl, rfl, rfl⟩

end EDF

namespace EDF

/-- Claim C2 counterexample: with `force=true` the write does NOT happen
regardless of the marker tag content. When the timestamp tag is present and
the marker bytes are not ASCII, `.decode("ascii")` raises before `force` is
evaluated; the per-file handler catches it, logs a warning, and no write
occurs. -/
theorem force_write_blocked_by_non_ascii_marker :
    writeCondition ⟨some (strBytes "2001:01:01 00:00:00"), some [200]⟩ false true =
      .error .unicodeDecodeError ∧
    (update_exif_date P1 "a.jpg" fileNonAsciiMarker envGood false false true).retVal = .ok false ∧
    (update_exif_date P1 "a.jpg" fileNonAsciiMarker envGood false false true).fileAfter =
      fileNonAsciiMarker ∧
    (update_exif_date P1 "a.jpg" fileNonAsciiMarker envGood false false true).logs =
      [⟨.warning, "processing_error"⟩] :=
  ⟨rfl, rfl, rfl, rfl⟩

/-- Claim C2 (amended): for every record whose marker tag value (taken as
empty bytes when absent) decodes as ASCII, the write decision never raises
and follows the claimed precedence: write exactly when the timestamp tag is
absent, or the marker carries the reserved stem and `allow_update` holds,
or `force` holds; otherwise no write. -/
theorem writeCondition_precedence (d : ExifDict) (u f : Bool)
    (h : (d.processedMarker.getD []).all (fun b => b < 128) = true) :
    writeCondition d u f =
      .ok (d.dateTimeOriginal.isNone ||
           (List.isPrefixOf (strBytes processedTagStem) (d.processedMarker.getD []) && u) || f) := by
  unfold writeCondition
  by_cases hn : d.dateTimeOriginal.isNone
  · simp [hn]
  · simp only [hn, if_false, Bool.false_eq_true, asciiDecode, h, if_true]
    simp [Bool.false_or, eq_false_of_ne_true hn]

/-- Witness for the amended C2: a record whose timestamp is set and whose
marker is the tool's own versioned tag, with `force=true`, is written. -/
theorem writeCondition_precedence_witness :
    writeCondition ⟨some (strBytes "2001:01:01 00:00:00"), some (strBytes processedTag)⟩
      false true = .ok true :=
  (writeCondition_precedence
    ⟨some (strBytes "2001:01:01 00:00:00"), some (strBytes processedTag)⟩
    false true (by decide)).trans rfl

end EDF

namespace EDF

/-- Claim C10 counterexample: a dry-run invocation on a filename no parser
matches emits only a debug "could not parse" message and never logs the
informational "would update" message, so the claim's "the outcome is
reported as would-write at informational level" fails for that invocation
(the no-mutation and not-updated parts do hold there). -/
theorem dry_run_no_date_no_would_write_log :
    (update_exif_date [] "f.jpg" fileNoBlob envGood true false false).logs =
      [⟨.debug, "no_date"⟩] ∧
    ((update_exif_date [] "f.jpg" fileNoBlob envGood true false false).logs.all
      (fun m => !(m.level == .info && m.tag == "would_update"))) = true ∧
    (update_exif_date [] "f.jpg" fileNoBlob envGood true false false).retVal = .ok false :=
  ⟨rfl, rfl, rfl⟩

/-- Claim C10 (amended): every dry-run invocation performs no write and
reports not-updated, so no directory is added to the updated set; the
"would update" informational message is emitted exactly when a date was
resolved from the filename (an unresolvable filename gets only a debug
message instead). -/
theorem dry_run_no_mutation (parsers : List ParserFun) (path : String)
    (file : ExifFile) (env : Env) (u f : Bool) (dt : DateTime)
    (dirs : List String) (dir : String)
    (hd : parse_date_from_filename parsers path = .ok (some dt)) :
    (update_exif_date parsers path file env true u f).retVal = .ok false ∧
    (update_exif_date parsers path file env true u f).fileAfter = file ∧
    (update_exif_date parsers path file env true u f).tempLeft = false ∧
    (update_exif_date parsers path file env true u f).logs = [⟨.info, "would_update"⟩] ∧
    (process_file parsers path file env false u f dirs dir).2 = dirs := by
  unfold process_file update_exif_date
  rw [hd]
  simp

/-- Witness for the amended C10: the spec's worked example filename in a
dry run. -/
theorem dry_run_no_mutation_witness :
    (update_exif_date P1 "2015-06-08 07.00.11.jpg" fileNoBlob envGood true false false).retVal =
      .ok false ∧
    (update_exif_date P1 "2015-06-08 07.00.11.jpg" fileNoBlob envGood true false false).fileAfter =
      fileNoBlob ∧
    (update_exif_date P1 "2015-06-08 07.00.11.jpg" fileNoBlob envGood true false false).tempLeft =
      false ∧
    (update_exif_date P1 "2015-06-08 07.00.11.jpg" fileNoBlob envGood true false false).logs =
      [⟨.info, "would_update"⟩] ∧
    (process_file P1 "2015-06-08 07.00.11.jpg" fileNoBlob envGood false false false [] "d").2 =
      [] :=
  dry_run_no_mutation P1 "2015-06-08 07.00.11.jpg" fileNoBlob envGood false false dt0 [] "d" rfl

/-- Claim C4 counterexample: an image that opens fine but whose present
exif blob is structurally invalid is NOT recovered with the empty skeleton:
`piexif.load` raises, the per-file handler logs a warning, the file is
skipped and left unchanged — while the same image with no blob at all (the
true skeleton case) gets written. -/
theorem invalid_blob_skips_file_not_skeleton :
    (update_exif_date P1 "a.jpg" invalidBlobFile envGood false false false).retVal = .ok false ∧
    (update_exif_date P1 "a.jpg" invalidBlobFile envGood false false false).fileAfter =
      invalidBlobFile ∧
    (update_exif_date P1 "a.jpg" invalidBlobFile envGood false false false).logs =
      [⟨.warning, "processing_error"⟩] ∧
    (update_exif_date P1 "a.jpg" (⟨.opens, false, false, skeleton⟩ : ExifFile)
      envGood false false false).retVal = .ok true :=
  ⟨rfl, rfl, rfl, rfl⟩

/-- Claim C4 (amended): the empty-skeleton fallback applies exactly to an
absent metadata blob; a present but structurally invalid blob makes the
decode raise, the per-file handler catches it, logs a warning and skips the
file with the original left unchanged (the batch, not the file's
processing, continues). A container that cannot be opened is skipped at
open time. -/
theorem invalid_blob_behavior (parsers : List ParserFun) (path : String)
    (file g : ExifFile) (env : Env) (u f : Bool) (dt : DateTime)
    (hd : parse_date_from_filename parsers path = .ok (some dt))
    (hopen : file.openRes = .opens)
    (hblob : file.hasExifBlob = true)
    (hbad : file.blobValid = false)
    (hg : g.hasExifBlob = false) :
    (update_exif_date parsers path file env false u f).retVal = .ok false ∧
    (update_exif_date parsers path file env false u f).fileAfter = file ∧
    (update_exif_date parsers path file env false u f).tempLeft = false ∧
    (update_exif_date parsers path file env false u f).logs = [⟨.warning, "processing_error"⟩] ∧
    decodeTags g = .ok skeleton := by
  unfold update_exif_date decodeTags
  rw [hd, hopen]
  simp [hblob, hbad, hg, decodeTags]

/-- Witness for the amended C4: the concrete invalid-blob image. -/
theorem invalid_blob_behavior_witness :
    (update_exif_date P1 "a.jpg" invalidBlobFile envGood false false false).retVal = .ok false ∧
    (update_exif_date P1 "a.jpg" invalidBlobFile envGood false false false).fileAfter =
      invalidBlobFile ∧
    (update_exif_date P1 "a.jpg" invalidBlobFile envGood false false false).tempLeft = false ∧
    (update_exif_date P1 "a.jpg" invalidBlobFile envGood false false false).logs =
      [⟨.warning, "processing_error"⟩] ∧
    decodeTags fileNoBlob = .ok skeleton :=
  invalid_blob_behavior P1 "a.jpg" invalidBlobFile fileNoBlob envGood false false dt0
    rfl rfl rfl rfl rfl

end EDF

namespace EDF

/-- Claim C6 counterexample: a failure while writing the re-encoded image
into the temporary file leaves the temp file behind. `NamedTemporaryFile`
is created with `delete=False`, `img.save` raises inside the `with` block,
the exception lands in the outer handler, and no cleanup path runs. -/
theorem temp_left_after_save_failure :
    (update_exif_date P1 "a.jpg" fileNoBlob envSaveFails false false false).tempLeft = true ∧
    (update_exif_date P1 "a.jpg" fileNoBlob envSaveFails false false false).retVal = .ok false :=
  ⟨rfl, rfl⟩

/-- Claim C6 (amended): whenever the write of the re-encoded image into the
temporary file succeeds, the temp file is removed on every exit path of the
rename loop — successful rename, exhausted retries, or any other rename
failure; the uncovered exit path is a failure of the save itself, which
leaves the temp file behind. -/
theorem temp_cleanup_when_save_succeeds (parsers : List ParserFun) (path : String)
    (file : ExifFile) (env : Env) (dry u f : Bool)
    (hsave : env.saveOk = true) :
    (update_exif_date parsers path file env dry u f).tempLeft = false := by
  cases hp : parse_date_from_filename parsers path with
  | error e => simp [update_exif_date, hp]
  | ok od =>
    cases od with
    | none => simp [update_exif_date, hp]
    | some dt =>
      by_cases hdry : dry
      · simp [update_exif_date, hp, hdry]
      · cases ho : file.openRes with
        | cannotIdentify => simp [update_exif_date, hp, hdry, ho]
        | failsOther => simp [update_exif_date, hp, hdry, ho]
        | opens =>
          cases hdec : decodeTags file with
          | error e => simp [update_exif_date, hp, hdry, ho, hdec]
          | ok d =>
            cases hw : writeCondition d u f with
            | error e => simp [update_exif_date, hp, hdry, ho, hdec, hw]
            | ok b =>
              cases b with
              | false => simp [update_exif_date, hp, hdry, ho, hdec, hw]
              | true =>
                cases hdump : env.dumpOk with
                | false => simp [update_exif_date, hp, hdry, ho, hdec, hw, hdump]
                | true =>
                  simp [update_exif_date, hp, hdry, ho, hdec, hw, hdump, hsave,
                    replaceLoop_tempLeft]

/-- Witness for the amended C6: with a succeeding save and every rename
attempt denied, the temp file is still cleaned up. -/
theorem temp_cleanup_when_save_succeeds_witness :
    (update_exif_date P1 "a.jpg" fileNoBlob envPermFail false false false).tempLeft = false :=
  temp_cleanup_when_save_succeeds P1 "a.jpg" fileNoBlob envPermFail false false false rfl

end EDF

namespace EDF

/-- Claim C3: with a wet run, `force=false` and `allow_update=false`, on a
file whose resolved date reaches the write (the decision evaluates to
write) and whose save-and-replace succeeds on the first attempt, the first
run writes both the timestamp tag and the marker tag, and the second run
with identical flags takes the already-set branch: it returns not-updated,
performs no write, leaves no temp file, and the on-disk file is unchanged. -/
theorem update_idempotent_second_run_already_set (parsers : List ParserFun)
    (path : String) (file : ExifFile) (env : Env) (dt : DateTime) (d : ExifDict)
    (hd : parse_date_from_filename parsers path = .ok (some dt))
    (hopen : file.openRes = .opens)
    (hdec : decodeTags file = .ok d)
    (hcond : writeCondition d false false = .ok true)
    (hdump : env.dumpOk = true) (hsave : env.saveOk = true)
    (hrep : env.replace 0 = .succeeds) :
    (update_exif_date parsers path file env false false false).retVal = .ok true ∧
    (update_exif_date parsers path file env false false false).fileAfter = writtenFile dt ∧
    (writtenFile dt).tags.dateTimeOriginal = some (strBytes (fmtDateTime dt)) ∧
    (writtenFile dt).tags.processedMarker = some (strBytes processedTag) ∧
    (update_exif_date parsers path (writtenFile dt) env false false false).retVal = .ok false ∧
    (update_exif_date parsers path (writtenFile dt) env false false false).fileAfter =
      writtenFile dt ∧
    (update_exif_date parsers path (writtenFile dt) env false false false).tempLeft = false ∧
    (update_exif_date parsers path (writtenFile dt) env false false false).logs =
      [⟨.debug, "already_set"⟩] := by
  have hloop : replaceLoop env = ⟨true, false, []⟩ := by
    simp [replaceLoop, replaceAttempt, hrep]
  have hwo : (writtenFile dt).openRes = .opens := rfl
  have hwf : decodeTags (writtenFile dt) = .ok (writtenFile dt).tags := rfl
  have hwc : writeCondition (writtenFile dt).tags false false = .ok false := by
    simp only [writeCondition, writtenFile, Option.isNone_some, Bool.false_eq_true, if_false,
      Option.getD_some]
    rw [show asciiDecode (strBytes processedTag) = .ok (strBytes processedTag) from rfl]
    simp
  refine ⟨?_, ?_, rfl, rfl, ?_, ?_, ?_, ?_⟩ <;>
    simp [update_exif_date, hd, hopen, hdec, hcond, hdump, hsave, hloop, hwo, hwf, hwc]

/-- Witness for C3: the spec's worked example, a file with no exif blob. -/
theorem update_idempotent_witness :
    (update_exif_date P1 "2015-06-08 07.00.11.jpg" fileNoBlob envGood false false false).retVal =
      .ok true ∧
    (update_exif_date P1 "2015-06-08 07.00.11.jpg" fileNoBlob envGood false false false).fileAfter =
      writtenFile dt0 ∧
    (writtenFile dt0).tags.dateTimeOriginal = some (strBytes (fmtDateTime dt0)) ∧
    (writtenFile dt0).tags.processedMarker = some (strBytes processedTag) ∧
    (update_exif_date P1 "2015-06-08 07.00.11.jpg" (writtenFile dt0) envGood
      false false false).retVal = .ok false ∧
    (update_exif_date P1 "2015-06-08 07.00.11.jpg" (writtenFile dt0) envGood
      false false false).fileAfter = writtenFile dt0 ∧
    (update_exif_date P1 "2015-06-08 07.00.11.jpg" (writtenFile dt0) envGood
      false false false).tempLeft = false ∧
    (update_exif_date P1 "2015-06-08 07.00.11.jpg" (writtenFile dt0) envGood
      false false false).logs = [⟨.debug, "already_set"⟩] :=
  update_idempotent_second_run_already_set P1 "2015-06-08 07.00.11.jpg" fileNoBlob envGood
    dt0 skeleton rfl rfl rfl rfl rfl rfl rfl

end EDF

namespace EDF

/-! Helper lemmas for the parser proofs. -/

/-- Bind on a success reduces to the continuation. -/
theorem exceptBindOk {α β : Type} (a : α) (f : α → Except PyError β) :
    (Except.ok a >>= f) = f a := rfl

/-- Bind on an error short-circuits. -/
theorem exceptBindError {α β : Type} (e : PyError) (f : α → Except PyError β) :
    ((Except.error e : Except PyError α) >>= f) = .error e := rfl

/-- A computation that either succeeds or raises exactly the `ValueError`
that `parse_date` catches. -/
def okOrValueError {α : Type} (e : Except PyError α) : Prop :=
  (∃ a, e = .ok a) ∨ e = .error .valueError

/-- Sequencing preserves `okOrValueError`. -/
theorem okOrValueError_bind {α β : Type} {x : Except PyError α}
    {f : α → Except PyError β} (hx : okOrValueError x)
    (hf : ∀ a, okOrValueError (f a)) : okOrValueError (x >>= f) := by
  rcases hx with ⟨a, ha⟩ | he
  · rw [ha, exceptBindOk]
    exact hf a
  · rw [he, exceptBindError]
    right
    rfl

/-- `int(s)` on a string either succeeds or raises `ValueError`. -/
theorem okOrValueError_pyIntOfString (s : String) :
    okOrValueError (pyIntOfString s) := by
  unfold pyIntOfString
  cases pyIntChars s.toList with
  | none => right; rfl
  | some n => left; exact ⟨n, rfl⟩

/-- `datetime(...)` either succeeds or raises `ValueError`. -/
theorem okOrValueError_datetimeNew (y mo d h mi s : Int) :
    okOrValueError (datetimeNew y mo d h mi s) := by
  unfold datetimeNew
  by_cases hv : validDate y mo d h mi s = true
  · left; exact ⟨⟨y, mo, d, h, mi, s, 0⟩, by simp [hv]⟩
  · right; simp [hv]

/-- A required group whose key holds captured text reduces lookup-then-int
to `int` of that text. -/
theorem getRequired_present (gd : GroupDict) (k : String) (s : String)
    (h : gdFind gd k = some (some s)) : getRequired gd k = pyIntOfString s := by
  unfold getRequired pyGetItem
  rw [h]
  rfl

/-- An optional group that is not a captured-nothing key either succeeds or
raises `ValueError` (the absent key yields the integer default `0`). -/
theorem okOrValueError_getOptional (gd : GroupDict) (k : String)
    (h : gdFind gd k ≠ some none) : okOrValueError (getOptional gd k) := by
  unfold getOptional pyGet
  cases hk : gdFind gd k with
  | none => left; exact ⟨0, rfl⟩
  | some v =>
    cases v with
    | none => exact absurd hk h
    | some s => exact okOrValueError_pyIntOfString s

end EDF

namespace EDF

/-- Claim C5 counterexample: a pattern whose named groups lack `year` makes
`parse_date` raise `KeyError` (uncaught: only `ValueError` is handled),
instead of returning a non-match. -/
theorem parse_date_keyerror_missing_year :
    RegexNameParser.parse_date ⟨fun _ => some [("month", some "1"), ("day", some "2")]⟩
      "f.jpg" = .error .keyError ∧
    RegexNameParser.parse_date
      ⟨fun _ => some [("year", some "2020"), ("month", some "5"), ("day", some "6"),
        ("hour", none)]⟩ "g.jpg" = .error .typeError :=
  ⟨rfl, rfl⟩

/-- Claim C5 (amended): `parse_date` never raises provided the pattern
declares `year`, `month` and `day` as participating groups and no declared
optional group went unmatched: unparsable integer text and invalid dates
raise only `ValueError`, which is caught and turned into a non-match. When
a required group is missing from the pattern the code instead raises
`KeyError`, and a declared group that did not participate raises
`TypeError` from `int(None)`. -/
theorem parse_date_no_raise_with_groups (p : RegexNameParser) (path : String)
    (gd : GroupDict) (sy sm sd : String)
    (hm : p.regexMatch path = some gd)
    (hy : gdFind gd "year" = some (some sy))
    (hmo : gdFind gd "month" = some (some sm))
    (hd : gdFind gd "day" = some (some sd))
    (hh : gdFind gd "hour" ≠ some none)
    (hmi : gdFind gd "minute" ≠ some none)
    (hs : gdFind gd "second" ≠ some none) :
    (p.parse_date path).isOk = true := by
  have hbody : okOrValueError (parseDateBody gd) := by
    unfold parseDateBody
    rw [getRequired_present gd "year" sy hy]
    refine okOrValueError_bind (okOrValueError_pyIntOfString sy) (fun y => ?_)
    rw [getRequired_present gd "month" sm hmo]
    refine okOrValueError_bind (okOrValueError_pyIntOfString sm) (fun mo => ?_)
    rw [getRequired_present gd "day" sd hd]
    refine okOrValueError_bind (okOrValueError_pyIntOfString sd) (fun d => ?_)
    refine okOrValueError_bind (okOrValueError_getOptional gd "hour" hh) (fun h => ?_)
    refine okOrValueError_bind (okOrValueError_getOptional gd "minute" hmi) (fun mi => ?_)
    refine okOrValueError_bind (okOrValueError_getOptional gd "second" hs) (fun s => ?_)
    exact okOrValueError_datetimeNew y mo d h mi s
  rcases hbody with ⟨dt, hdt⟩ | herr
  · simp [RegexNameParser.parse_date, hm, hdt, Except.isOk, Except.toBool]
  · simp [RegexNameParser.parse_date, hm, herr, Except.isOk, Except.toBool]

/-- Witness for the amended C5: all groups present, but the day is invalid
for the month — no exception, just a non-match. -/
theorem parse_date_no_raise_witness :
    (RegexNameParser.parse_date
      ⟨fun _ => some [("year", some "2020"), ("month", some "2"), ("day", some "30")]⟩
      "2020-02-30.jpg").isOk = true :=
  parse_date_no_raise_with_groups
    ⟨fun _ => some [("year", some "2020"), ("month", some "2"), ("day", some "30")]⟩
    "2020-02-30.jpg" [("year", some "2020"), ("month", some "2"), ("day", some "30")]
    "2020" "2" "30" rfl rfl rfl rfl
    (by decide) (by decide) (by decide)

end EDF

namespace EDF

/-- A groupdict with sub-second groups captured alongside the date. -/
def gdSubsec : GroupDict :=
  [("year", some "2020"), ("month", some "5"), ("day", some "6"),
   ("microsecond", some "123456"), ("millisecond", some "789")]

/-- An absent optional key yields the integer default, so `int(0) = 0`. -/
theorem getOptional_absent (gd : GroupDict) (k : String) (h : gdFind gd k = none) :
    getOptional gd k = .ok 0 := by
  unfold getOptional pyGet
  rw [h]
  rfl

/-- Inversion of a successful `parse_date` body: the six conversions
succeeded and the datetime is built from them with zero microsecond. -/
theorem parseDateBody_ok_inv (gd : GroupDict) (dt : DateTime)
    (hb : parseDateBody gd = .ok dt) :
    ∃ y mo d h mi s : Int,
      getRequired gd "year" = .ok y ∧ getRequired gd "month" = .ok mo ∧
      getRequired gd "day" = .ok d ∧ getOptional gd "hour" = .ok h ∧
      getOptional gd "minute" = .ok mi ∧ getOptional gd "second" = .ok s ∧
      dt = ⟨y, mo, d, h, mi, s, 0⟩ := by
  unfold parseDateBody at hb
  cases hy : getRequired gd "year" with
  | error e => rw [hy, exceptBindError] at hb; exact absurd hb (by simp)
  | ok y =>
    rw [hy, exceptBindOk] at hb
    cases hmo : getRequired gd "month" with
    | error e => rw [hmo, exceptBindError] at hb; exact absurd hb (by simp)
    | ok mo =>
      rw [hmo, exceptBindOk] at hb
      cases hd : getRequired gd "day" with
      | error e => rw [hd, exceptBindError] at hb; exact absurd hb (by simp)
      | ok d =>
        rw [hd, exceptBindOk] at hb
        cases hh : getOptional gd "hour" with
        | error e => rw [hh, exceptBindError] at hb; exact absurd hb (by simp)
        | ok h =>
          rw [hh, exceptBindOk] at hb
          cases hmi : getOptional gd "minute" with
          | error e => rw [hmi, exceptBindError] at hb; exact absurd hb (by simp)
          | ok mi =>
            rw [hmi, exceptBindOk] at hb
            cases hs : getOptional gd "second" with
            | error e => rw [hs, exceptBindError] at hb; exact absurd hb (by simp)
            | ok s =>
              rw [hs, exceptBindOk] at hb
              unfold datetimeNew at hb
              by_cases hv : validDate y mo d h mi s = true
              · rw [if_pos hv] at hb
                exact ⟨y, mo, d, h, mi, s, rfl, rfl, rfl, rfl, rfl, rfl,
                  (Except.ok.inj hb).symm⟩
              · rw [if_neg hv] at hb
                exact absurd hb (by simp)

/-- Claim C7 counterexample: with both `microsecond` and `millisecond`
groups present and non-null, the constructed date-time has microsecond `0`,
not the captured `123456`: the code never reads either group. -/
theorem microsecond_groups_ignored :
    RegexNameParser.parse_date ⟨fun _ => some gdSubsec⟩ "m.jpg" =
      .ok (some ⟨2020, 5, 6, 0, 0, 0, 0⟩) ∧
    (⟨2020, 5, 6, 0, 0, 0, 0⟩ : DateTime).microsecond = 0 ∧
    ¬(⟨2020, 5, 6, 0, 0, 0, 0⟩ : DateTime).microsecond = 123456 :=
  ⟨rfl, rfl, by decide⟩

/-- Claim C7 (amended): the `microsecond` and `millisecond` groups are
ignored entirely — every successfully constructed date-time has sub-second
value `0` — while `hour`, `minute` and `second` do default to `0` when
their groups are absent from the pattern. -/
theorem subsecond_always_zero (p : RegexNameParser) (path : String)
    (gd : GroupDict) (dt : DateTime)
    (hm : p.regexMatch path = some gd)
    (hp : p.parse_date path = .ok (some dt)) :
    dt.microsecond = 0 ∧
    (gdFind gd "hour" = none → dt.hour = 0) ∧
    (gdFind gd "minute" = none → dt.minute = 0) ∧
    (gdFind gd "second" = none → dt.second = 0) := by
  have hb : parseDateBody gd = .ok dt := by
    unfold RegexNameParser.parse_date at hp
    rw [hm] at hp
    have hp2 : (match parseDateBody gd with
        | .ok dtr => Except.ok (some dtr)
        | .error .valueError => (.ok none : Except PyError (Option DateTime))
        | .error e => .error e) = .ok (some dt) := hp
    cases hbb : parseDateBody gd with
    | ok dt2 =>
      rw [hbb] at hp2
      simp at hp2
      subst hp2
      rfl
    | error e =>
      rw [hbb] at hp2
      cases e <;> simp at hp2
  obtain ⟨y, mo, d, h, mi, s, hy, hmo, hd, hh, hmi, hs, hdt⟩ :=
    parseDateBody_ok_inv gd dt hb
  subst hdt
  refine ⟨rfl, ?_, ?_, ?_⟩
  · intro hna
    exact Except.ok.inj (hh.symm.trans (getOptional_absent gd "hour" hna))
  · intro hna
    exact Except.ok.inj (hmi.symm.trans (getOptional_absent gd "minute" hna))
  · intro hna
    exact Except.ok.inj (hs.symm.trans (getOptional_absent gd "second" hna))

/-- Witness for the amended C7: the sub-second groupdict parses to a
date-time whose time-of-day and sub-second fields are all zero. -/
theorem subsecond_always_zero_witness :
    (⟨2020, 5, 6, 0, 0, 0, 0⟩ : DateTime).microsecond = 0 ∧
    (⟨2020, 5, 6, 0, 0, 0, 0⟩ : DateTime).hour = 0 ∧
    (⟨2020, 5, 6, 0, 0, 0, 0⟩ : DateTime).minute = 0 ∧
    (⟨2020, 5, 6, 0, 0, 0, 0⟩ : DateTime).second = 0 :=
  have T := subsecond_always_zero ⟨fun _ => some gdSubsec⟩ "m.jpg" gdSubsec
    ⟨2020, 5, 6, 0, 0, 0, 0⟩ rfl rfl
  ⟨T.1, T.2.1 rfl, T.2.2.1 rfl, T.2.2.2 rfl⟩

end EDF

namespace EDF

/-- A chain element that declines every path. -/
def pNone : ParserFun := pureParser (fun _ => none)

/-- A chain element producing the example date on every path. -/
def pDt0 : ParserFun := pureParser (fun _ => some dt0)

/-- A distinct date, to witness that a later match is never preferred. -/
def dt1 : DateTime := ⟨2020, 1, 2, 3, 4, 5, 0⟩

/-- A chain element producing the distinct later date. -/
def pDt1 : ParserFun := pureParser (fun _ => some dt1)

/-- A leading run of declining parsers is skipped by the resolver. -/
theorem resolver_skips_decliners (ps1 rest : List ParserFun) (path : String)
    (h1 : ∀ g, g ∈ ps1 → g path = .ok none) :
    parse_date_from_filename (ps1 ++ rest) path =
      parse_date_from_filename rest path := by
  revert h1
  induction ps1 with
  | nil => intro h1; rfl
  | cons g gs ih =>
    intro h1
    have hg : g path = .ok none := h1 g (by simp)
    have hgs : ∀ g2, g2 ∈ gs → g2 path = .ok none := fun g2 hm2 => h1 g2 (by simp [hm2])
    simp only [List.cons_append, parse_date_from_filename, hg, exceptBindOk]
    exact ih hgs

/-- The resolver yields `None` exactly when every parser declines. -/
theorem resolver_none_iff (ps : List ParserFun) (path : String) :
    parse_date_from_filename ps path = .ok none ↔
      ∀ g, g ∈ ps → g path = .ok none := by
  induction ps with
  | nil => simp [parse_date_from_filename]
  | cons g gs ih =>
    constructor
    · intro h
      cases hg : g path with
      | error e =>
        rw [parse_date_from_filename, hg, exceptBindError] at h
        exact absurd h (by simp)
      | ok od =>
        cases od with
        | some dtx =>
          rw [parse_date_from_filename, hg, exceptBindOk] at h
          simp [pure, Except.pure] at h
        | none =>
          rw [parse_date_from_filename, hg, exceptBindOk] at h
          intro g2 hg2
          rcases List.mem_cons.mp hg2 with he | hmem
          · rw [he]; exact hg
          · exact (ih.mp h) g2 hmem
    · intro hall
      have hg : g path = .ok none := hall g (by simp)
      rw [parse_date_from_filename, hg, exceptBindOk]
      exact ih.mpr (fun g2 hmem => hall g2 (by simp [hmem]))

/-- Claim C8: the resolver returns the result of the earliest parser that
produces a date — when parsers before it all decline, a later parser is
never consulted — and it returns `None` exactly when every parser in the
chain declines. -/
theorem resolver_first_match_wins (ps1 ps2 : List ParserFun) (f : ParserFun)
    (path : String) (d : DateTime)
    (h1 : ∀ g, g ∈ ps1 → g path = .ok none)
    (h2 : f path = .ok (some d)) :
    parse_date_from_filename (ps1 ++ f :: ps2) path = .ok (some d) ∧
    ∀ ps : List ParserFun,
      (parse_date_from_filename ps path = .ok none ↔
        ∀ g, g ∈ ps → g path = .ok none) := by
  refine ⟨?_, fun ps => resolver_none_iff ps path⟩
  rw [resolver_skips_decliners ps1 (f :: ps2) path h1]
  rw [parse_date_from_filename, h2, exceptBindOk]
  rfl

/-- Witness for C8: a declining parser, then two parsers that both match —
the earlier of the two wins; a chain of decliners resolves to `None`. -/
theorem resolver_first_match_wins_witness :
    parse_date_from_filename ([pNone] ++ pDt0 :: [pDt1]) "x.jpg" = .ok (some dt0) ∧
    parse_date_from_filename [pNone] "x.jpg" = .ok none :=
  have T := resolver_first_match_wins [pNone] [pDt1] pDt0 "x.jpg" dt0
    (by intro g hg; rw [List.mem_singleton] at hg; subst hg; rfl) rfl
  ⟨T.1, (T.2 [pNone]).mpr
    (by intro g hg; rw [List.mem_singleton] at hg; subst hg; rfl)⟩

/-- The month-13 groupdict of the spec's invalid-date scenario. -/
def gdMonth13 : GroupDict :=
  [("year", some "2021"), ("month", some "13"), ("day", some "5")]

/-- A regex parser whose pattern captures month 13 on every path. -/
def rpMonth13 : RegexNameParser := ⟨fun _ => some gdMonth13⟩

/-- Claim C9: captured integer fields that do not form a valid calendar
date make `datetime` raise `ValueError`, which `parse_date` catches and
turns into a non-match, and the resolver proceeds with the rest of the
chain exactly as if the parser were absent. -/
theorem invalid_calendar_date_declines_chain_continues (p : RegexNameParser)
    (rest : List ParserFun) (path : String) (gd : GroupDict)
    (y mo d h mi s : Int)
    (hm : p.regexMatch path = some gd)
    (hy : getRequired gd "year" = .ok y)
    (hmo : getRequired gd "month" = .ok mo)
    (hd : getRequired gd "day" = .ok d)
    (hh : getOptional gd "hour" = .ok h)
    (hmi : getOptional gd "minute" = .ok mi)
    (hs : getOptional gd "second" = .ok s)
    (hval : validDate y mo d h mi s = false) :
    p.parse_date path = .ok none ∧
    parse_date_from_filename ((fun q => p.parse_date q) :: rest) path =
      parse_date_from_filename rest path := by
  have hbody : parseDateBody gd = .error .valueError := by
    unfold parseDateBody
    rw [hy, exceptBindOk, hmo, exceptBindOk, hd, exceptBindOk, hh, exceptBindOk,
      hmi, exceptBindOk, hs, exceptBindOk]
    unfold datetimeNew
    simp [hval]
  have hpd : p.parse_date path = .ok none := by
    simp only [RegexNameParser.parse_date, hm]
    rw [hbody]
  refine ⟨hpd, ?_⟩
  simp only [parse_date_from_filename, hpd, exceptBindOk]

/-- Witness for C9: month 13 declines and the chain falls through to the
next parser. -/
theorem invalid_calendar_date_witness :
    RegexNameParser.parse_date rpMonth13 "f.jpg" = .ok none ∧
    parse_date_from_filename
      ((fun q => RegexNameParser.parse_date rpMonth13 q) :: [pDt0]) "f.jpg" =
      parse_date_from_filename [pDt0] "f.jpg" :=
  invalid_calendar_date_declines_chain_continues rpMonth13 [pDt0] "f.jpg" gdMonth13
    2021 13 5 0 0 0 rfl rfl rfl rfl rfl rfl rfl (by decide)

end EDF
